import Mathlib

/-!
Verification of the daily fee digest batch job (`daily_fee_digest.py`).

The script fetches a daily trade CSV from object storage, parses it, filters
records to the trading-session window, aggregates per-instrument-class fee
totals, renders a summary and posts it to a webhook.  This file gives a
shallow embedding of the script and proves the specified properties.

Monetary arithmetic is embedded over the rationals (the Python source uses
floats; all amounts exercised here are exact decimal fractions, so the
rational embedding agrees with the source at cent granularity).
-/

/-! ## Python string primitives -/

/-- ASCII whitespace recognized by Python `str.strip()` (the Unicode
whitespace additionally stripped by Python does not occur in any input
considered here). -/
def pyIsSpace (c : Char) : Bool :=
  c = ' ' || c = '\t' || c = '\n' || c = '\r' || c = '\x0b' || c = '\x0c'

/-- Python `str.strip()`. -/
def pyStrip (s : String) : String :=
  ⟨((s.data.dropWhile pyIsSpace).reverse.dropWhile pyIsSpace).reverse⟩

/-- Worker for `pySplit`: accumulates the current chunk (reversed). -/
def splitCharAux (c : Char) : List Char → List Char → List (List Char)
  | [], acc => [acc.reverse]
  | x :: rest, acc =>
      if x = c then acc.reverse :: splitCharAux c rest []
      else splitCharAux c rest (x :: acc)

/-- Python `str.split(sep)` for a one-character separator: splits on every
occurrence, keeping empty chunks (so the result is never empty). -/
def pySplit (c : Char) (s : String) : List String :=
  (splitCharAux c s.data []).map (fun l => ⟨l⟩)

/-- Python `str.lower()` (ASCII; no input here contains cased non-ASCII). -/
def pyLower (s : String) : String := ⟨s.data.map Char.toLower⟩

/-- Python `str.upper()` (ASCII; no input here contains cased non-ASCII). -/
def pyUpper (s : String) : String := ⟨s.data.map Char.toUpper⟩

/-! ## Python dict built from `zip`, and `dict.get` -/

/-- A parsed trade record: the `dict(zip(header, values))` of the script,
kept as the association list it was built from. -/
abbrev TradeRecord := List (String × String)

/-- Python `dict` lookup for a dict built from an association list:
with duplicate keys the LAST binding wins, as in `dict(zip(...))`. -/
def pyDictGet {α : Type} : List (String × α) → String → Option α
  | [], _ => none
  | (k, v) :: rest, key =>
      match pyDictGet rest key with
      | some v2 => some v2
      | none => if k == key then some v else none

/-- Python `d.get(key, default)` on a string-valued dict. -/
def pyDictGetD (d : TradeRecord) (key dflt : String) : String :=
  (pyDictGet d key).getD dflt

/-! ## parse_trades -/

/-- One iteration of the row loop in `parse_trades`: a blank line is
skipped, any other line is split on commas and zipped against the header
(`zip` truncates to the shorter side, so a mismatched row yields a
partial/misaligned record). -/
def parseDataRow (header : List String) (line : String) : Option TradeRecord :=
  if pyStrip line == "" then none
  else some (header.zip (pySplit ',' line))

/-- The data-row pass of `parse_trades` over the non-header lines. -/
def parseRows (header : List String) (lines : List String) : List TradeRecord :=
  lines.filterMap (parseDataRow header)

/-- `parse_trades`: strip the content, split into lines, return no records
for fewer than two lines, otherwise lower-case the first line as the
comma-separated header and build one record per non-blank data line. -/
def parse_trades (csv_content : String) : List TradeRecord :=
  match pySplit '\n' (pyStrip csv_content) with
  | [] => []
  | [_] => []
  | l0 :: l1 :: rest =>
      let header := pySplit ',' (pyLower l0)
      parseRows header (l1 :: rest)

/-! ## Python int() on strings

`int(s)` strips surrounding whitespace, accepts an optional sign, and then
requires a non-empty digit sequence in which single underscores may occur
strictly between digits. -/

/-- Value of an ASCII digit character. -/
def digitVal (c : Char) : Nat := c.toNat - 48

/-- Digits-with-underscores tail: after an accepted digit, each further
character must be a digit or an underscore followed by a digit. -/
def pyDigitsTail (acc : Nat) : List Char → Option Nat
  | [] => some acc
  | c :: rest =>
      if c.isDigit then pyDigitsTail (acc * 10 + digitVal c) rest
      else if c = '_' then
        match rest with
        | [] => none
        | d :: rest2 =>
            if d.isDigit then pyDigitsTail (acc * 10 + digitVal d) rest2
            else none
      else none

/-- A non-empty digit sequence with optional internal underscores. -/
def pyDigits : List Char → Option Nat
  | [] => none
  | c :: rest => if c.isDigit then pyDigitsTail (digitVal c) rest else none

/-- Python `int(s)` for a string argument; `none` models the `ValueError`
raised on malformed input. -/
def pyInt (s : String) : Option Int :=
  match (pyStrip s).data with
  | '+' :: rest => (pyDigits rest).map (fun n => (n : Int))
  | '-' :: rest => (pyDigits rest).map (fun n => -(n : Int))
  | l => (pyDigits l).map (fun n => (n : Int))

/-! ## Calendar arithmetic

Python `datetime` instants are embedded as total seconds on a linear time
scale (days from the civil epoch via the standard civil-calendar day count);
`datetime` comparison and `timedelta` subtraction agree with this scale. -/

/-- Gregorian leap-year rule. -/
def isLeapYear (y : Nat) : Bool :=
  (y % 4 == 0 && y % 100 != 0) || y % 400 == 0

/-- Number of days in a month (used by `datetime`'s validity check). -/
def daysInMonth (y m : Nat) : Nat :=
  if m = 2 then (if isLeapYear y then 29 else 28)
  else if m = 4 || m = 6 || m = 9 || m = 11 then 30
  else 31

/-- Day count of a civil date (days since 0000-03-01), valid for y ≥ 1. -/
def daysFromCivil (y m d : Nat) : Nat :=
  let yAdj := if m ≤ 2 then y - 1 else y
  let era := yAdj / 400
  let yoe := yAdj % 400
  let mp := (m + 9) % 12
  let doy := (153 * mp + 2) / 5 + (d - 1)
  let doe := yoe * 365 + yoe / 4 - yoe / 100 + doy
  era * 146097 + doe

/-- A `datetime` instant as seconds on the linear time scale. -/
def civilSecs (y m d h mi s : Nat) : Int :=
  ((daysFromCivil y m d * 86400 + h * 3600 + mi * 60 + s : Nat) : Int)

/-- A processing date (the time-of-day components are irrelevant: the
session computation replaces them). -/
structure Date where
  year : Nat
  month : Nat
  day : Nat
deriving DecidableEq, Repr

/-! ## strptime for the trade timestamp pattern

`datetime.strptime(s, "%m/%d/%Y-%H:%M:%S")`: each numeric directive other
than the year matches one or two digits within its range (so a leading zero
is optional), the year matches exactly four digits, the delimiters are
literal, the whole string must be consumed, and the resulting date must be
a valid calendar date with year at least 1. -/

/-- Match a 1-2 digit numeric field against an inclusive range. -/
def parseField (lo hi : Nat) (chunk : String) : Option Nat :=
  let cs := chunk.data
  if cs.all Char.isDigit && (cs.length == 1 || cs.length == 2) then
    let v := cs.foldl (fun a c => a * 10 + digitVal c) 0
    if lo ≤ v ∧ v ≤ hi then some v else none
  else none

/-- Match the exactly-four-digit year field. -/
def parseYearField (chunk : String) : Option Nat :=
  let cs := chunk.data
  if cs.all Char.isDigit && cs.length == 4 then
    some (cs.foldl (fun a c => a * 10 + digitVal c) 0)
  else none

/-- `datetime.strptime(s, "%m/%d/%Y-%H:%M:%S")`, returning the instant in
seconds, or `none` for any parse or validity failure. -/
def parseTradeTimestamp (s : String) : Option Int :=
  match pySplit '-' s with
  | [datePart, timePart] =>
      match pySplit '/' datePart, pySplit ':' timePart with
      | [ms, ds, ys], [hs, mis, ss] =>
          match parseField 1 12 ms, parseField 1 31 ds, parseYearField ys,
                parseField 0 23 hs, parseField 0 59 mis, parseField 0 59 ss with
          | some m, some d, some y, some h, some mi, some sec =>
              if 1 ≤ y ∧ d ≤ daysInMonth y m then some (civilSecs y m d h mi sec)
              else none
          | _, _, _, _, _, _ => none
      | _, _ => none
  | _ => none

/-! ## filter_trades_by_session -/

/-- Session start: the processing date at 17:00:00 minus one day
(`process_date.replace(hour=17, minute=0, second=0, microsecond=0)
 - timedelta(days=1)`). -/
def sessionStart (process_date : Date) : Int :=
  civilSecs process_date.year process_date.month process_date.day 17 0 0 - 86400

/-- The per-record condition of the session-filter loop: not an EXPIRATION
trade, non-empty trade_datetime, timestamp parses, and the parsed instant
is at least the session start (an unparseable timestamp is dropped with a
warning, not an error). -/
def keepTrade (process_date : Date) (trade : TradeRecord) : Bool :=
  if pyUpper (pyDictGetD trade "trade_source" "") == "EXPIRATION" then false
  else if pyDictGetD trade "trade_datetime" "" == "" then false
  else
    match parseTradeTimestamp (pyDictGetD trade "trade_datetime" "") with
    | none => false
    | some t => decide (sessionStart process_date ≤ t)

/-- `filter_trades_by_session`: keep the records satisfying `keepTrade`. -/
def filter_trades_by_session (trades : List TradeRecord) (process_date : Date) :
    List TradeRecord :=
  trades.filter (keepTrade process_date)

/-! ## Fee configuration and calculate_fees -/

/-- Fee configuration for a single instrument type. -/
structure FeeConfig where
  exchange_fee : ℚ
  clearing_fee : ℚ
  regulatory_fee : ℚ
deriving DecidableEq, Repr

/-- Derived total fee per contract. -/
def FeeConfig.total_per_contract (c : FeeConfig) : ℚ :=
  c.exchange_fee + c.clearing_fee + c.regulatory_fee

/-- Summary of trades and fees for a single instrument type. -/
structure TradeSummary where
  instrument_type : String
  trade_count : Nat
  total_contracts : Int
  total_fees : ℚ
deriving DecidableEq, Repr

/-- Options-bucket test: instrument_type, lower-cased, is option/options. -/
def isOptionRecord (t : TradeRecord) : Bool :=
  pyLower (pyDictGetD t "instrument_type" "") == "option" ||
  pyLower (pyDictGetD t "instrument_type" "") == "options"

/-- Futures-bucket test: instrument_type, lower-cased, is future/futures. -/
def isFutureRecord (t : TradeRecord) : Bool :=
  pyLower (pyDictGetD t "instrument_type" "") == "future" ||
  pyLower (pyDictGetD t "instrument_type" "") == "futures"

/-- The options bucket of `calculate_fees`. -/
def options_trades (trades : List TradeRecord) : List TradeRecord :=
  trades.filter isOptionRecord

/-- The futures bucket of `calculate_fees`. -/
def futures_trades (trades : List TradeRecord) : List TradeRecord :=
  trades.filter isFutureRecord

/-- `sum(int(t.get("quantity", 0)) for t in ts)`: a missing quantity field
defaults to the integer 0; a present but malformed quantity raises
`ValueError` (modelled as `Except.error`), aborting the sum. -/
def sum_quantities : List TradeRecord → Except String Int
  | [] => .ok 0
  | t :: rest =>
      match pyDictGet t "quantity" with
      | none =>
          match sum_quantities rest with
          | .ok r => .ok (0 + r)
          | .error e => .error e
      | some s =>
          match pyInt s with
          | none => .error ("invalid literal for int() with base 10: " ++ s)
          | some q =>
              match sum_quantities rest with
              | .ok r => .ok (q + r)
              | .error e => .error e

/-- `calculate_fees`: bucket the trades, sum quantities per bucket (the
options sum is evaluated first, so its failure takes precedence), and build
the two summaries with `total_fees = contracts * rate.total_per_contract`. -/
def calculate_fees (trades : List TradeRecord)
    (options_config futures_config : FeeConfig) :
    Except String (TradeSummary × TradeSummary) :=
  match sum_quantities (options_trades trades), sum_quantities (futures_trades trades) with
  | .ok oc, .ok fc =>
      .ok (⟨"options", (options_trades trades).length, oc,
            (oc : ℚ) * FeeConfig.total_per_contract options_config⟩,
           ⟨"futures", (futures_trades trades).length, fc,
            (fc : ℚ) * FeeConfig.total_per_contract futures_config⟩)
  | .error e, _ => .error e
  | .ok _, .error e => .error e

/-! ## Currency and number formatting -/

/-- Decimal digit character. -/
def digitChar (d : Nat) : Char := Char.ofNat (48 + d)

/-- Decimal digits of a natural number below 10^40 (fuel-bounded; every
number formatted by this program is far smaller). -/
def natDigitsAux : Nat → Nat → List Char
  | 0, _ => []
  | fuel + 1, n =>
      if n < 10 then [digitChar n]
      else natDigitsAux fuel (n / 10) ++ [digitChar (n % 10)]

/-- Decimal rendering of a natural number. -/
def natToDecimal (n : Nat) : String := ⟨natDigitsAux 40 n⟩

/-- Insert thousands separators into a reversed digit list. -/
def groupThousandsAux : List Char → List Char
  | a :: b :: c :: d :: rest => a :: b :: c :: ',' :: groupThousandsAux (d :: rest)
  | l => l

/-- Thousands-separated digits of a natural number, as in format `{:,}`. -/
def groupThousands (n : Nat) : String :=
  ⟨(groupThousandsAux (natToDecimal n).data.reverse).reverse⟩

/-- Python `{n:,}` for a natural count. -/
def pyCommaNat (n : Nat) : String := groupThousands n

/-- Python `{i:,}` for an integer. -/
def pyCommaInt (i : Int) : String :=
  if i < 0 then "-" ++ groupThousands i.natAbs else groupThousands i.natAbs

/-- Round a rational to the nearest integer, ties to even (the rounding of
Python `format` at cent granularity). -/
def roundHalfEven (x : ℚ) : Int :=
  if x - ⌊x⌋ < 1 / 2 then ⌊x⌋
  else if 1 / 2 < x - ⌊x⌋ then ⌊x⌋ + 1
  else if ⌊x⌋ % 2 = 0 then ⌊x⌋ else ⌊x⌋ + 1

/-- Two-digit rendering of a cents remainder. -/
def pad2 (n : Nat) : String :=
  if n < 10 then "0" ++ natToDecimal n else natToDecimal n

/-- Rendering of a signed cents amount: sign, thousands-separated dollars,
point, two-digit cents. -/
def renderCents (cents : Int) : String :=
  let sign := if cents < 0 then "-" else ""
  "$" ++ sign ++ groupThousands (cents.natAbs / 100) ++ "." ++ pad2 (cents.natAbs % 100)

/-- `format_currency`: the f-string `${amount:,.2f}` — dollar sign, then
the amount rounded to two decimals with thousands separators. -/
def format_currency (amount : ℚ) : String :=
  renderCents (roundHalfEven (amount * 100))

/-! ## build_fee_message -/

/-- JSON values, for the dict-shaped data the script builds. -/
inductive JsonVal where
  | null : JsonVal
  | bool (b : Bool) : JsonVal
  | num (q : ℚ) : JsonVal
  | str (s : String) : JsonVal
  | arr (elems : List JsonVal) : JsonVal
  | obj (fields : List (String × JsonVal)) : JsonVal

/-- `build_fee_message`: the markdown summary text (lines joined with
newlines) and the `summary_data` dict of grand totals.  The `date`
parameter is accepted and unused, exactly as in the source. -/
def build_fee_message (date : Date)
    (options_summary futures_summary : TradeSummary)
    (options_config futures_config : FeeConfig) :
    String × List (String × JsonVal) :=
  let _ := date
  let total_fees := options_summary.total_fees + futures_summary.total_fees
  let total_trades := options_summary.trade_count + futures_summary.trade_count
  let total_contracts := options_summary.total_contracts + futures_summary.total_contracts
  let message_lines : List String := [
    "**Total Fees: " ++ format_currency total_fees ++ "**",
    "",
    "📊 **Options**",
    "  • Trades: " ++ pyCommaNat options_summary.trade_count,
    "  • Contracts: " ++ pyCommaInt options_summary.total_contracts,
    "  • Fees: " ++ format_currency options_summary.total_fees ++ " @ "
      ++ format_currency (FeeConfig.total_per_contract options_config) ++ "/contract",
    "",
    "📈 **Futures**",
    "  • Trades: " ++ pyCommaNat futures_summary.trade_count,
    "  • Contracts: " ++ pyCommaInt futures_summary.total_contracts,
    "  • Fees: " ++ format_currency futures_summary.total_fees ++ " @ "
      ++ format_currency (FeeConfig.total_per_contract futures_config) ++ "/contract",
    "",
    "**Totals:** " ++ pyCommaNat total_trades ++ " trades, "
      ++ pyCommaInt total_contracts ++ " contracts"]
  let summary_data : List (String × JsonVal) := [
    ("total_fees", .num total_fees),
    ("total_fees_formatted", .str (format_currency total_fees)),
    ("total_trades", .num total_trades),
    ("total_contracts", .num total_contracts)]
  (String.intercalate "\n" message_lines, summary_data)

/-! ## send_teams_message -/

/-- The card title: the current calendar date, with an optional suffix. -/
def teams_title (today title_suffix : String) : String :=
  if title_suffix == "" then "Daily Fee Digest " ++ today
  else "Daily Fee Digest " ++ today ++ " (" ++ title_suffix ++ ")"

/-- The Adaptive Card JSON body POSTed by `send_teams_message`, as a
function of the computed title, the message text, and the rendered current
UTC time. -/
def teams_payload (title message utcNow : String) : JsonVal :=
  .obj [
    ("type", .str "message"),
    ("attachments", .arr [
      .obj [
        ("contentType", .str "application/vnd.microsoft.card.adaptive"),
        ("contentUrl", .null),
        ("content", .obj [
          ("$schema", .str "http://adaptivecards.io/schemas/adaptive-card.json"),
          ("type", .str "AdaptiveCard"),
          ("version", .str "1.4"),
          ("body", .arr [
            .obj [("type", .str "TextBlock"), ("size", .str "Large"),
                  ("weight", .str "Bolder"), ("text", .str title)],
            .obj [("type", .str "TextBlock"), ("text", .str message),
                  ("wrap", .bool true)],
            .obj [("type", .str "TextBlock"),
                  ("text", .str ("Timestamp (UTC): " ++ utcNow)),
                  ("isSubtle", .bool true), ("spacing", .str "Small")]])])]])]

/-- The JSON body delivered by `send_teams_message` for a given current
date, title suffix, message, and current UTC time: always the Adaptive
Card (the function has no body-shape parameter). -/
def delivered_webhook_body (today title_suffix message utcNow : String) : JsonVal :=
  teams_payload (teams_title today title_suffix) message utcNow

/-- Depth-bounded search for a numeric leaf in a JSON value (depth 100 far
exceeds every document built here). -/
def jsonHasNumberFuel : Nat → JsonVal → Bool
  | 0, _ => false
  | _ + 1, .num _ => true
  | fuel + 1, .arr xs => xs.any (jsonHasNumberFuel fuel)
  | fuel + 1, .obj fs => fs.any (fun p => jsonHasNumberFuel fuel p.2)
  | _ + 1, _ => false

/-- Modelled from the spec: the structured-payload delivery shape must
carry the grand totals as numeric JSON values, so a JSON body qualifying
as the structured payload contains at least one numeric leaf. -/
def specStructuredShapeNumeric (j : JsonVal) : Bool :=
  jsonHasNumberFuel 100 j

/-! ## download_trade_file -/

/-- Result of the storage client call inside `download_trade_file`. -/
inductive FetchResult where
  | found (content : String) : FetchResult
  | noSuchKey : FetchResult
  | otherError (msg : String) : FetchResult

/-- `download_trade_file`: on success the decoded contents; on `NoSuchKey`
print a not-found line and return `None`; on any other exception print an
error line and return `None`.  The first component is the printed output,
the second the returned value. -/
def download_trade_file (bucket key : String) (fetch : FetchResult) :
    List String × Option String :=
  match fetch with
  | .found content => ([], some content)
  | .noSuchKey => (["Trade file not found: s3://" ++ bucket ++ "/" ++ key], none)
  | .otherError e => (["Error downloading trade file: " ++ e], none)

/-! ## Configuration and main -/

/-- The configuration document, as consumed by the script. -/
structure AppConfig where
  fees : List (String × List (String × ℚ))
  s3_bucket : String
  s3_pfx : String
  webhook_url : Option String

/-- `get_fee_config`: missing instrument sections and missing fee fields
default to 0. -/
def get_fee_config (config : AppConfig) (instrument_type : String) : FeeConfig :=
  let fees := (pyDictGet config.fees instrument_type).getD []
  { exchange_fee := (pyDictGet fees "exchange_fee").getD 0,
    clearing_fee := (pyDictGet fees "clearing_fee").getD 0,
    regulatory_fee := (pyDictGet fees "regulatory_fee").getD 0 }

/-- Four-digit zero-padded year, as `strftime` renders `%Y` here. -/
def pad4 (n : Nat) : String :=
  if n < 10 then "000" ++ natToDecimal n
  else if n < 100 then "00" ++ natToDecimal n
  else if n < 1000 then "0" ++ natToDecimal n
  else natToDecimal n

/-- `get_trade_file_key`: the key is the prefix, then `trades_`, then the
processing date as YYYYMMDD, then `.csv`. -/
def get_trade_file_key (keyPfx : String) (date : Date) : String :=
  keyPfx ++ "trades_" ++ (pad4 date.year ++ pad2 date.month ++ pad2 date.day) ++ ".csv"

/-- External circumstances of one run of `main`. -/
structure MainEnv where
  configExists : Bool
  config : AppConfig
  processDate : Date
  fetch : FetchResult
  dryRun : Bool
  postOk : Bool

/-- Observable outcome of a run: the process exit code and how many
webhook deliveries were attempted. -/
structure RunOutcome where
  exitCode : Nat
  deliveryAttempts : Nat
deriving DecidableEq, Repr

/-- `main`: load config (exit 1 if missing), fetch and parse the trade
file (exit 1 when absent or on a fetch error), filter and aggregate (an
unhandled quantity `ValueError` terminates the interpreter with exit code
1), then either stop after printing (dry run, exit 0) or send the webhook
(exit 1 on a missing/empty URL, else exit 0 on delivery success and 1 on
failure). -/
def mainRun (env : MainEnv) : RunOutcome :=
  if env.configExists = false then ⟨1, 0⟩
  else
    let options_config := get_fee_config env.config "options"
    let futures_config := get_fee_config env.config "futures"
    let key := get_trade_file_key env.config.s3_pfx env.processDate
    match (download_trade_file env.config.s3_bucket key env.fetch).2 with
    | none => ⟨1, 0⟩
    | some csv_content =>
        let all_trades := parse_trades csv_content
        let trades := filter_trades_by_session all_trades env.processDate
        match calculate_fees trades options_config futures_config with
        | .error _ => ⟨1, 0⟩
        | .ok _ =>
            if env.dryRun then ⟨0, 0⟩
            else
              match env.config.webhook_url with
              | none => ⟨1, 0⟩
              | some url =>
                  if url == "" then ⟨1, 0⟩
                  else if env.postOk then ⟨0, 1⟩ else ⟨1, 1⟩

/-! ## The end-to-end scenario input -/

/-- The scenario trade file: three option rows (quantities 10, 5, 5) and
two future rows (quantities 1, 1), all timestamped inside the 2024-01-15
session and none tagged EXPIRATION. -/
def demoCsv : String :=
  "trade_datetime,instrument_type,quantity,trade_source\n" ++
  "01/15/2024-09:30:00,option,10,MANUAL\n" ++
  "01/15/2024-10:00:00,Option,5,MANUAL\n" ++
  "01/15/2024-10:30:00,OPTIONS,5,MANUAL\n" ++
  "01/15/2024-11:00:00,future,1,MANUAL\n" ++
  "01/15/2024-11:30:00,Futures,1,MANUAL"

/-- The scenario options rate set: 0.02 + 0.01 + 0.01 per contract. -/
def demoOptionsConfig : FeeConfig := ⟨0.02, 0.01, 0.01⟩

/-- The scenario futures rate set: 0.85 + 0.10 + 0.05 per contract. -/
def demoFuturesConfig : FeeConfig := ⟨0.85, 0.10, 0.05⟩

/-! ## Helper lemmas -/

theorem roundHalfEven_eq_of_floor (x : ℚ) (n : Int) (hf : ⌊x⌋ = n)
    (hr : x - n < 1 / 2) : roundHalfEven x = n := by
  unfold roundHalfEven
  rw [hf, if_pos hr]

theorem roundHalfEven_intCast (n : Int) : roundHalfEven (n : ℚ) = n :=
  roundHalfEven_eq_of_floor _ _ (Int.floor_intCast n) (by norm_num)

theorem roundHalfEven_intCast_add_tenth (n : Int) :
    roundHalfEven ((n : ℚ) + 1 / 10) = n := by
  refine roundHalfEven_eq_of_floor _ _ ?_ (by norm_num)
  rw [Int.floor_eq_iff]
  constructor <;> [norm_num; · push_cast; norm_num]

/-- A record never tests as both an option and a future. -/
theorem not_option_and_future (t : TradeRecord) :
    (isOptionRecord t && isFutureRecord t) = false := by
  unfold isOptionRecord isFutureRecord
  by_cases h1 : pyLower (pyDictGetD t "instrument_type" "") = "option"
  · rw [h1]; decide
  by_cases h2 : pyLower (pyDictGetD t "instrument_type" "") = "options"
  · rw [h2]; decide
  have e1 : (pyLower (pyDictGetD t "instrument_type" "") == "option") = false :=
    beq_eq_false_iff_ne.mpr h1
  have e2 : (pyLower (pyDictGetD t "instrument_type" "") == "options") = false :=
    beq_eq_false_iff_ne.mpr h2
  rw [e1, e2]
  simp

/-- Evaluation rule for `format_currency` when the amount is a whole number
of cents. -/
theorem format_currency_of_cents (q : ℚ) (n : Int) (h : q * 100 = (n : ℚ)) :
    format_currency q = renderCents n := by
  unfold format_currency
  rw [h, roundHalfEven_intCast]

/-- Characterization of the per-record session-filter test. -/
theorem keepTrade_iff (pd : Date) (t : TradeRecord) :
    keepTrade pd t = true ↔
      pyUpper (pyDictGetD t "trade_source" "") ≠ "EXPIRATION" ∧
      pyDictGetD t "trade_datetime" "" ≠ "" ∧
      ∃ n, parseTradeTimestamp (pyDictGetD t "trade_datetime" "") = some n ∧
        sessionStart pd ≤ n := by
  unfold keepTrade
  by_cases h1 : pyUpper (pyDictGetD t "trade_source" "") = "EXPIRATION" <;>
    by_cases h2 : pyDictGetD t "trade_datetime" "" = "" <;>
    rcases hp : parseTradeTimestamp (pyDictGetD t "trade_datetime" "") with _ | n <;>
    simp [h1, h2, hp]

/-! ## The claims -/

/-- C9: format_currency produces a fixed two-decimal, thousands-separated,
dollar-sign-prefixed string: 12345.6 maps to "$12,345.60", 0 maps to
"$0.00", and 1234567.891 maps to "$1,234,567.89". -/
theorem format_currency_examples :
    format_currency (12345.6 : ℚ) = "$12,345.60" ∧
    format_currency 0 = "$0.00" ∧
    format_currency (1234567.891 : ℚ) = "$1,234,567.89" := by
  refine ⟨?_, ?_, ?_⟩
  · rw [format_currency_of_cents (12345.6 : ℚ) 1234560 (by norm_num)]
    decide
  · rw [format_currency_of_cents 0 0 (by norm_num)]
    decide
  · unfold format_currency
    rw [show (1234567.891 : ℚ) * 100 = ((123456789 : Int) : ℚ) + 1 / 10 by norm_num,
      roundHalfEven_intCast_add_tenth]
    decide

/-- C4 counterexample: the not-found fetch failure and a transient fetch
failure return the very same value (`None`), so at this concrete input the
two failure kinds are not distinguishable by the caller. -/
theorem download_failures_return_same_value :
    (download_trade_file "trades-bucket" "feeds/trades_20240115.csv" .noSuchKey).2
      = (download_trade_file "trades-bucket" "feeds/trades_20240115.csv"
          (.otherError "connection timed out")).2 := rfl

/-- C4 amended: on a missing object and on any other fetch failure the
fetch returns the same `None` value — the caller cannot tell the two
apart from the result — and only the printed diagnostic line differs
between the two failure kinds. -/
theorem download_failure_outcomes :
    ∀ (bucket key e : String),
      (download_trade_file bucket key .noSuchKey).2 = none ∧
      (download_trade_file bucket key (.otherError e)).2 = none ∧
      (download_trade_file bucket key .noSuchKey).1
        = ["Trade file not found: s3://" ++ bucket ++ "/" ++ key] ∧
      (download_trade_file bucket key (.otherError e)).1
        = ["Error downloading trade file: " ++ e] ∧
      (download_trade_file "b" "k" .noSuchKey).1
        ≠ (download_trade_file "b" "k" (.otherError "timeout")).1 :=
  fun _ _ _ => ⟨rfl, rfl, rfl, rfl, by decide⟩

/-- C5 counterexample: at this concrete run the JSON body delivered by the
webhook sender contains no numeric JSON value at all, so it is not the
structured payload shape (which must carry numeric grand totals) — the
delivered body is the narrative card. -/
theorem delivered_body_never_structured :
    specStructuredShapeNumeric
      (delivered_webhook_body "2024-01-15" "" "**Total Fees: $2.80**"
        "2024-01-15 12:00:00") = false := rfl

/-- C5 amended: the delivered JSON body is always the narrative Adaptive
Card envelope — a titled card (title carrying the current calendar date)
with the message text and a UTC timestamp footer; the structured summary
dict that the program also builds is only printed, never delivered, and
carries only the grand totals (numeric and formatted fees, trade and
contract counts), not the full structured-payload shape; in particular no
choice of inputs makes the delivered body carry a numeric value. -/
theorem delivered_body_is_card :
    ∀ (today title_suffix message utcNow : String) (date : Date)
      (oS fS : TradeSummary) (oC fC : FeeConfig),
      specStructuredShapeNumeric
        (delivered_webhook_body today title_suffix message utcNow) = false ∧
      delivered_webhook_body today title_suffix message utcNow =
        .obj [
          ("type", .str "message"),
          ("attachments", .arr [
            .obj [
              ("contentType", .str "application/vnd.microsoft.card.adaptive"),
              ("contentUrl", .null),
              ("content", .obj [
                ("$schema", .str "http://adaptivecards.io/schemas/adaptive-card.json"),
                ("type", .str "AdaptiveCard"),
                ("version", .str "1.4"),
                ("body", .arr [
                  .obj [("type", .str "TextBlock"), ("size", .str "Large"),
                        ("weight", .str "Bolder"),
                        ("text", .str (teams_title today title_suffix))],
                  .obj [("type", .str "TextBlock"), ("text", .str message),
                        ("wrap", .bool true)],
                  .obj [("type", .str "TextBlock"),
                        ("text", .str ("Timestamp (UTC): " ++ utcNow)),
                        ("isSubtle", .bool true), ("spacing", .str "Small")]])])]])] ∧
      (build_fee_message date oS fS oC fC).2.map Prod.fst =
        ["total_fees", "total_fees_formatted", "total_trades", "total_contracts"] :=
  fun _ _ _ _ _ _ _ _ _ => ⟨rfl, rfl, rfl⟩

/-- C3: a record lands in the options bucket exactly when its
instrument-class field lower-cased is option or options, in the futures
bucket exactly when it is future or futures, in neither bucket otherwise,
and never in both. -/
theorem classification_rule :
    ∀ (t : TradeRecord) (trades : List TradeRecord),
      (t ∈ options_trades trades ↔ t ∈ trades ∧
        (pyLower (pyDictGetD t "instrument_type" "") = "option" ∨
         pyLower (pyDictGetD t "instrument_type" "") = "options")) ∧
      (t ∈ futures_trades trades ↔ t ∈ trades ∧
        (pyLower (pyDictGetD t "instrument_type" "") = "future" ∨
         pyLower (pyDictGetD t "instrument_type" "") = "futures")) ∧
      (isOptionRecord t && isFutureRecord t) = false := by
  intro t trades
  refine ⟨?_, ?_, not_option_and_future t⟩
  · simp [options_trades, List.mem_filter, isOptionRecord]
  · simp [futures_trades, List.mem_filter, isFutureRecord]

/-- C2: the session filter retains a record iff its trade source is not
EXPIRATION (case-insensitive), its timestamp is non-empty, the timestamp
parses in the pattern of the strptime call, and the parsed instant is at
least the processing date at 17:00:00 minus one day (no upper bound); for
processing date 2024-01-15, 01/14/2024-17:00:00 is retained,
01/14/2024-16:59:59 is dropped, and any-case EXPIRATION is dropped
regardless of timestamp. -/
theorem session_filter_rule :
    ∀ (trades : List TradeRecord) (t : TradeRecord) (pd : Date) (src ts : String),
      (t ∈ filter_trades_by_session trades pd ↔
        t ∈ trades ∧
        pyUpper (pyDictGetD t "trade_source" "") ≠ "EXPIRATION" ∧
        pyDictGetD t "trade_datetime" "" ≠ "" ∧
        ∃ n, parseTradeTimestamp (pyDictGetD t "trade_datetime" "") = some n ∧
          sessionStart pd ≤ n) ∧
      filter_trades_by_session
        [[("trade_datetime", "01/14/2024-17:00:00")]] ⟨2024, 1, 15⟩
        = [[("trade_datetime", "01/14/2024-17:00:00")]] ∧
      filter_trades_by_session
        [[("trade_datetime", "01/14/2024-16:59:59")]] ⟨2024, 1, 15⟩ = [] ∧
      (pyUpper src = "EXPIRATION" →
        filter_trades_by_session
          [[("trade_datetime", ts), ("trade_source", src)]] ⟨2024, 1, 15⟩ = []) := by
  intro trades t pd src ts
  refine ⟨?_, by decide, by decide, ?_⟩
  · rw [filter_trades_by_session, List.mem_filter, keepTrade_iff]
  · intro hsrc
    simp [filter_trades_by_session, keepTrade, pyDictGetD, pyDictGet, hsrc]

/-- C2 witness: an EXPIRATION record (mixed case) with an in-session
timestamp is dropped. -/
theorem session_filter_rule_witness :
    filter_trades_by_session
      [[("trade_datetime", "01/14/2024-17:00:00"), ("trade_source", "Expiration")]]
      ⟨2024, 1, 15⟩ = [] :=
  (session_filter_rule [] [] ⟨2024, 1, 15⟩ "Expiration" "01/14/2024-17:00:00").2.2.2
    (by decide)

/-- C6: the derived fee per contract is the exact sum of the three
components, and each summary produced by a successful calculate_fees run
has total fees equal to its contract count times the fee per contract of
its rate set. -/
theorem fee_arithmetic :
    ∀ (cfg oCfg fCfg : FeeConfig) (trades : List TradeRecord)
      (oS fS : TradeSummary),
      FeeConfig.total_per_contract cfg
        = cfg.exchange_fee + cfg.clearing_fee + cfg.regulatory_fee ∧
      (calculate_fees trades oCfg fCfg = .ok (oS, fS) →
        oS.total_fees = (oS.total_contracts : ℚ) * FeeConfig.total_per_contract oCfg ∧
        fS.total_fees = (fS.total_contracts : ℚ) * FeeConfig.total_per_contract fCfg) := by
  intro cfg oCfg fCfg trades oS fS
  refine ⟨rfl, ?_⟩
  intro h
  unfold calculate_fees at h
  split at h
  · rw [Except.ok.injEq] at h
    obtain ⟨h1, h2⟩ := Prod.mk.injEq .. ▸ h
    exact ⟨h1 ▸ rfl, h2 ▸ rfl⟩
  · exact Except.noConfusion h
  · exact Except.noConfusion h

/-- C6 witness: the property evaluated on one option trade of quantity 2. -/
theorem fee_arithmetic_witness :
    ∃ oS fS,
      calculate_fees [[("instrument_type", "option"), ("quantity", "2")]]
        ⟨1, 0, 0⟩ ⟨2, 0, 0⟩ = .ok (oS, fS) ∧
      oS.total_fees = (oS.total_contracts : ℚ) * FeeConfig.total_per_contract ⟨1, 0, 0⟩ := by
  refine ⟨_, _, rfl, ?_⟩
  exact ((fee_arithmetic ⟨1, 0, 0⟩ ⟨1, 0, 0⟩ ⟨2, 0, 0⟩
    [[("instrument_type", "option"), ("quantity", "2")]] _ _).2 rfl).1

/-- C7: the run exits 0 on success or a successful dry run, and exits 1
with no delivery attempt on a missing config file or a missing trade file;
after a successful aggregation a non-dry run exits 1 without delivery when
the webhook URL is missing, and otherwise attempts exactly one delivery,
exiting 0 on success and 1 on failure. -/
theorem exit_codes :
    ∀ (env : MainEnv),
      (env.configExists = false → mainRun env = ⟨1, 0⟩) ∧
      (env.fetch = .noSuchKey → mainRun env = ⟨1, 0⟩) ∧
      (∀ c p, env.configExists = true → env.fetch = .found c →
        calculate_fees
          (filter_trades_by_session (parse_trades c) env.processDate)
          (get_fee_config env.config "options")
          (get_fee_config env.config "futures") = .ok p →
        (env.dryRun = true → mainRun env = ⟨0, 0⟩) ∧
        (env.dryRun = false →
          ((env.config.webhook_url = none ∨ env.config.webhook_url = some "") →
            mainRun env = ⟨1, 0⟩) ∧
          (∀ url, env.config.webhook_url = some url → url ≠ "" →
            (env.postOk = true → mainRun env = ⟨0, 1⟩) ∧
            (env.postOk = false → mainRun env = ⟨1, 1⟩)))) := by
  intro env
  refine ⟨?_, ?_, ?_⟩
  · intro h
    simp [mainRun, h]
  · intro h
    by_cases hc : env.configExists = false
    · simp [mainRun, hc]
    · simp [mainRun, hc, h, download_trade_file]
  · intro c p hc hf hcalc
    refine ⟨?_, ?_⟩
    · intro hd
      simp [mainRun, hc, hf, download_trade_file, hcalc, hd]
    · intro hd
      refine ⟨?_, ?_⟩
      · rintro (hw | hw) <;>
          simp [mainRun, hc, hf, download_trade_file, hcalc, hd, hw]
      · intro url hw hu
        have hu' : (url == "") = false := beq_eq_false_iff_ne.mpr hu
        refine ⟨?_, ?_⟩ <;> intro hp <;>
          simp [mainRun, hc, hf, download_trade_file, hcalc, hd, hw, hp, hu']

/-- C7 witness: concrete runs through the branches — missing config,
missing trade file (no delivery attempted), successful dry run, and a
successful delivery. -/
theorem exit_codes_witness :
    mainRun ⟨false, ⟨[], "b", "p", none⟩, ⟨2024, 1, 15⟩, .noSuchKey, false, false⟩
      = ⟨1, 0⟩ ∧
    mainRun ⟨true, ⟨[], "b", "p", none⟩, ⟨2024, 1, 15⟩, .noSuchKey, false, false⟩
      = ⟨1, 0⟩ ∧
    mainRun ⟨true, ⟨[], "b", "p", none⟩, ⟨2024, 1, 15⟩, .found "", true, false⟩
      = ⟨0, 0⟩ ∧
    mainRun ⟨true, ⟨[], "b", "p", some "https://hook"⟩, ⟨2024, 1, 15⟩, .found "", false, true⟩
      = ⟨0, 1⟩ ∧
    mainRun ⟨true, ⟨[], "b", "p", some "https://hook"⟩, ⟨2024, 1, 15⟩, .found "", false, false⟩
      = ⟨1, 1⟩ := by
  refine ⟨(exit_codes _).1 rfl, (exit_codes _).2.1 rfl, ?_, ?_, ?_⟩
  · exact (((exit_codes
      ⟨true, ⟨[], "b", "p", none⟩, ⟨2024, 1, 15⟩, .found "", true, false⟩).2.2 ""
      (⟨"options", 0, 0, ((0 : Int) : ℚ) * FeeConfig.total_per_contract ⟨0, 0, 0⟩⟩,
       ⟨"futures", 0, 0, ((0 : Int) : ℚ) * FeeConfig.total_per_contract ⟨0, 0, 0⟩⟩)
      rfl rfl rfl).1 rfl)
  · exact ((((exit_codes
      ⟨true, ⟨[], "b", "p", some "https://hook"⟩, ⟨2024, 1, 15⟩, .found "", false, true⟩).2.2 ""
      (⟨"options", 0, 0, ((0 : Int) : ℚ) * FeeConfig.total_per_contract ⟨0, 0, 0⟩⟩,
       ⟨"futures", 0, 0, ((0 : Int) : ℚ) * FeeConfig.total_per_contract ⟨0, 0, 0⟩⟩)
      rfl rfl rfl).2 rfl).2 "https://hook" rfl (by decide)).1 rfl
  · exact ((((exit_codes
      ⟨true, ⟨[], "b", "p", some "https://hook"⟩, ⟨2024, 1, 15⟩, .found "", false, false⟩).2.2 ""
      (⟨"options", 0, 0, ((0 : Int) : ℚ) * FeeConfig.total_per_contract ⟨0, 0, 0⟩⟩,
       ⟨"futures", 0, 0, ((0 : Int) : ℚ) * FeeConfig.total_per_contract ⟨0, 0, 0⟩⟩)
      rfl rfl rfl).2 rfl).2 "https://hook" rfl (by decide)).2 rfl

/-- C8: parse_trades yields zero records for inputs with fewer than two
lines (in particular an empty input or a lone header line), skips blank
data lines, and zips a data row of mismatched width positionally against
the header to a partial record instead of failing. -/
theorem parse_trades_edge_cases :
    ∀ (csv : String) (header : List String) (pre post : List String) (blank : String),
      ((pySplit '\n' (pyStrip csv)).length < 2 → parse_trades csv = []) ∧
      (pyStrip blank = "" →
        parseRows header (pre ++ blank :: post) = parseRows header (pre ++ post)) ∧
      parse_trades "" = [] ∧
      parse_trades "timestamp,symbol,side,quantity,price,instrument_type,exchange" = [] ∧
      parse_trades "a,b\n \n\n" = [] ∧
      parse_trades "a,b,c\n1,2" = [[("a", "1"), ("b", "2")]] ∧
      parse_trades "a,b\n1,2,3" = [[("a", "1"), ("b", "2")]] := by
  intro csv header pre post blank
  refine ⟨?_, ?_, by decide, by decide, by decide, by decide, by decide⟩
  · intro h
    rcases hs : pySplit '\n' (pyStrip csv) with _ | ⟨a, _ | ⟨b, rest⟩⟩
    · simp [parse_trades, hs]
    · simp [parse_trades, hs]
    · rw [hs] at h
      simp [List.length_cons] at h
      omega
  · intro hb
    have hnone : parseDataRow header blank = none := by
      simp [parseDataRow, hb]
    simp [parseRows, List.filterMap_append, List.filterMap_cons, hnone]

/-- C8 witness: the general conjuncts evaluated at a one-line input and at
a whitespace-only line inserted between two data rows. -/
theorem parse_trades_edge_cases_witness :
    parse_trades "onlyheader" = [] ∧
    parseRows ["a"] (["x,y"] ++ " " :: ["z,w"]) = parseRows ["a"] (["x,y"] ++ ["z,w"]) :=
  ⟨(parse_trades_edge_cases "onlyheader" [] [] [] "").1 (by decide),
   (parse_trades_edge_cases "" ["a"] ["x,y"] ["z,w"] " ").2.1 (by decide)⟩

/-- C10: in calculate_fees, a classified record with no quantity field at
all still increments the trade count but contributes 0 contracts, with no
error; a classified record whose quantity field is present but not a valid
integer aborts the whole computation with a parse failure. -/
theorem quantity_policy :
    ∀ (r : TradeRecord) (rest : List TradeRecord) (oCfg fCfg : FeeConfig),
      (isOptionRecord r = true → pyDictGet r "quantity" = none →
        ∀ oS fS, calculate_fees rest oCfg fCfg = .ok (oS, fS) →
          calculate_fees (r :: rest) oCfg fCfg =
            .ok ({ oS with trade_count := oS.trade_count + 1 }, fS)) ∧
      (isFutureRecord r = true → pyDictGet r "quantity" = none →
        ∀ oS fS, calculate_fees rest oCfg fCfg = .ok (oS, fS) →
          calculate_fees (r :: rest) oCfg fCfg =
            .ok (oS, { fS with trade_count := fS.trade_count + 1 })) ∧
      ((isOptionRecord r = true ∨ isFutureRecord r = true) →
        ∀ s, pyDictGet r "quantity" = some s → pyInt s = none →
          ∃ msg, calculate_fees (r :: rest) oCfg fCfg = .error msg) := by
  intro r rest oCfg fCfg
  refine ⟨?_, ?_, ?_⟩
  · intro hopt hq oS fS hok
    have hnotfut : isFutureRecord r = false := by
      have h := not_option_and_future r
      rwa [hopt, Bool.true_and] at h
    have ho : options_trades (r :: rest) = r :: options_trades rest := by
      simp [options_trades, List.filter_cons, hopt]
    have hf : futures_trades (r :: rest) = futures_trades rest := by
      simp [futures_trades, List.filter_cons, hnotfut]
    unfold calculate_fees at hok ⊢
    rw [ho, hf]
    rcases hso : sum_quantities (options_trades rest) with e | oq <;> rw [hso] at hok
    · exact Except.noConfusion hok
    rcases hsf : sum_quantities (futures_trades rest) with e | fq <;> rw [hsf] at hok
    · exact Except.noConfusion hok
    have hsum : sum_quantities (r :: options_trades rest) = .ok (0 + oq) := by
      simp [sum_quantities, hq, hso]
    rw [hsum]
    rw [Except.ok.injEq] at hok
    have h1 := congrArg Prod.fst hok
    have h2 := congrArg Prod.snd hok
    simp only [] at h1 h2
    subst h1
    subst h2
    simp [List.length_cons]
  · intro hfut hq oS fS hok
    have hnotopt : isOptionRecord r = false := by
      have h := not_option_and_future r
      rwa [hfut, Bool.and_true] at h
    have ho : options_trades (r :: rest) = options_trades rest := by
      simp [options_trades, List.filter_cons, hnotopt]
    have hf : futures_trades (r :: rest) = r :: futures_trades rest := by
      simp [futures_trades, List.filter_cons, hfut]
    unfold calculate_fees at hok ⊢
    rw [ho, hf]
    rcases hso : sum_quantities (options_trades rest) with e | oq <;> rw [hso] at hok
    · exact Except.noConfusion hok
    rcases hsf : sum_quantities (futures_trades rest) with e | fq <;> rw [hsf] at hok
    · exact Except.noConfusion hok
    have hsum : sum_quantities (r :: futures_trades rest) = .ok (0 + fq) := by
      simp [sum_quantities, hq, hsf]
    rw [hsum]
    rw [Except.ok.injEq] at hok
    have h1 := congrArg Prod.fst hok
    have h2 := congrArg Prod.snd hok
    simp only [] at h1 h2
    subst h1
    subst h2
    simp [List.length_cons]
  · rintro (hopt | hfut) s hq hbad
    · have ho : options_trades (r :: rest) = r :: options_trades rest := by
        simp [options_trades, List.filter_cons, hopt]
      have hsum : sum_quantities (r :: options_trades rest)
          = .error ("invalid literal for int() with base 10: " ++ s) := by
        simp [sum_quantities, hq, hbad]
      refine ⟨"invalid literal for int() with base 10: " ++ s, ?_⟩
      unfold calculate_fees
      rw [ho, hsum]
    · have hf : futures_trades (r :: rest) = r :: futures_trades rest := by
        simp [futures_trades, List.filter_cons, hfut]
      have hsum : sum_quantities (r :: futures_trades rest)
          = .error ("invalid literal for int() with base 10: " ++ s) := by
        simp [sum_quantities, hq, hbad]
      rcases hso : sum_quantities (options_trades (r :: rest)) with e | oq
      · exact ⟨e, by unfold calculate_fees; rw [hso]⟩
      · exact ⟨"invalid literal for int() with base 10: " ++ s, by
          unfold calculate_fees; rw [hso, hf, hsum]⟩

/-- C10 witness: an option record with no quantity field yields a
successful summary counting one trade and zero contracts, while a future
record with quantity "xx" aborts with a parse failure. -/
theorem quantity_policy_witness :
    (∃ p, calculate_fees [[("instrument_type", "option")]] ⟨1, 1, 1⟩ ⟨2, 2, 2⟩
        = .ok p ∧ p.1.trade_count = 1 ∧ p.1.total_contracts = 0) ∧
    (∃ msg, calculate_fees [[("instrument_type", "future"), ("quantity", "xx")]]
        ⟨1, 1, 1⟩ ⟨2, 2, 2⟩ = .error msg) := by
  constructor
  · exact ⟨_, (quantity_policy [("instrument_type", "option")] [] ⟨1, 1, 1⟩ ⟨2, 2, 2⟩).1
      rfl rfl
      ⟨"options", 0, 0, ((0 : Int) : ℚ) * FeeConfig.total_per_contract ⟨1, 1, 1⟩⟩
      ⟨"futures", 0, 0, ((0 : Int) : ℚ) * FeeConfig.total_per_contract ⟨2, 2, 2⟩⟩
      rfl, rfl, rfl⟩
  · exact (quantity_policy [("instrument_type", "future"), ("quantity", "xx")] []
      ⟨1, 1, 1⟩ ⟨2, 2, 2⟩).2.2 (Or.inr rfl) "xx" rfl rfl

/-- C1: on the scenario input the pipeline yields the options summary
(3 trades, 20 contracts, fees 4/5 of a dollar, formatted $0.80), the
futures summary (2 trades, 2 contracts, $2.00 fees), and grand totals of
$2.80 fees, 5 trades and 22 contracts. -/
theorem end_to_end_scenario :
    ∃ oS fS,
      calculate_fees
        (filter_trades_by_session (parse_trades demoCsv) ⟨2024, 1, 15⟩)
        demoOptionsConfig demoFuturesConfig = .ok (oS, fS) ∧
      oS = ⟨"options", 3, 20, 4 / 5⟩ ∧
      fS = ⟨"futures", 2, 2, 2⟩ ∧
      format_currency oS.total_fees = "$0.80" ∧
      format_currency fS.total_fees = "$2.00" ∧
      (build_fee_message ⟨2024, 1, 15⟩ oS fS demoOptionsConfig demoFuturesConfig).2 =
        [("total_fees", .num (14 / 5)),
         ("total_fees_formatted", .str "$2.80"),
         ("total_trades", .num 5),
         ("total_contracts", .num 22)] := by
  have e1 : (⟨"options", 3, 20,
      ((20 : Int) : ℚ) * FeeConfig.total_per_contract demoOptionsConfig⟩ : TradeSummary)
      = ⟨"options", 3, 20, 4 / 5⟩ := by
    simp only [TradeSummary.mk.injEq]
    norm_num [FeeConfig.total_per_contract, demoOptionsConfig]
  have e2 : (⟨"futures", 2, 2,
      ((2 : Int) : ℚ) * FeeConfig.total_per_contract demoFuturesConfig⟩ : TradeSummary)
      = ⟨"futures", 2, 2, 2⟩ := by
    simp only [TradeSummary.mk.injEq]
    norm_num [FeeConfig.total_per_contract, demoFuturesConfig]
  have hcalc : calculate_fees
      (filter_trades_by_session (parse_trades demoCsv) ⟨2024, 1, 15⟩)
      demoOptionsConfig demoFuturesConfig =
      .ok (⟨"options", 3, 20,
            ((20 : Int) : ℚ) * FeeConfig.total_per_contract demoOptionsConfig⟩,
           ⟨"futures", 2, 2,
            ((2 : Int) : ℚ) * FeeConfig.total_per_contract demoFuturesConfig⟩) := rfl
  rw [e1, e2] at hcalc
  refine ⟨_, _, hcalc, rfl, rfl, ?_, ?_, ?_⟩
  · rw [show (⟨"options", 3, 20, 4 / 5⟩ : TradeSummary).total_fees = (4 / 5 : ℚ) from rfl,
      format_currency_of_cents (4 / 5 : ℚ) 80 (by norm_num)]
    decide
  · rw [show (⟨"futures", 2, 2, 2⟩ : TradeSummary).total_fees = (2 : ℚ) from rfl,
      format_currency_of_cents (2 : ℚ) 200 (by norm_num)]
    decide
  · simp only [build_fee_message]
    rw [show (4 / 5 : ℚ) + 2 = 14 / 5 by norm_num,
      format_currency_of_cents (14 / 5 : ℚ) 280 (by norm_num)]
    norm_num
    decide
